import Mathlib

/-!
Verification of the MUSES Calculation Engine client
(`calculation_engine_api.py` and `utils.py`).

The client is synchronous Python code doing HTTP calls.  We embed it
shallowly:

* JSON values are the inductive `CE.Json` (Python dicts keep insertion
  order, so objects are association lists).
* an HTTP response is `CE.Response`: its status code and the result of
  `response.json()` (`none` when JSON parsing would raise).
* the network is an oracle: a stream `Nat → Response` giving the server's
  answer to the n-th attempt of a retry loop, or a function
  `Json → Nat → Response` keyed by URL for the pagination loops.
* the unbounded `while` loops of the source take fuel; a result of `none`
  models a non-normal outcome (the loop never terminating with the given
  fuel, or an uncaught Python exception such as `KeyError`).
* `time.sleep` calls are recorded as a list of rational durations.
-/

namespace CE

/-- JSON values as produced by `response.json()`.  Objects are ordered
association lists, mirroring Python dict insertion order. -/
inductive Json where
  | null : Json
  | bool (b : Bool) : Json
  | num (n : Int) : Json
  | str (s : String) : Json
  | arr (elems : List Json) : Json
  | obj (fields : List (String × Json)) : Json

/-- Python `d[k]` on a parsed JSON value: defined when the value is a dict
holding the key, otherwise the access raises (`KeyError`/`TypeError`). -/
def Json.getField : Json → String → Option Json
  | Json.obj fields, k => List.lookup k fields
  | _, _ => none

/-- Python truthiness of a JSON value, as used by `while url:` and
`if uuid:` in the source. -/
def Json.truthy : Json → Bool
  | Json.null => false
  | Json.bool b => b
  | Json.num n => n != 0
  | Json.str s => !s.isEmpty
  | Json.arr xs => !xs.isEmpty
  | Json.obj fs => !fs.isEmpty

/-- Python `v == s` between a JSON value and a string literal: true only
for equal strings. -/
def Json.isStr : Json → String → Bool
  | Json.str t, s => t == s
  | _, _ => false

/-- An HTTP response: the status code, and the outcome of calling
`response.json()` on it (`none` when the body is not valid JSON, in which
case `.json()` raises). -/
structure Response where
  status_code : Nat
  body : Option Json

/-- Result of a client method: either parsed JSON data or the raw
response object handed back unchanged. -/
inductive ApiResult where
  | json (data : Json) : ApiResult
  | raw (response : Response) : ApiResult

/-- Embeds `CalculationEngineApi.display_response` (lines 61-81).  The
`isinstance` guard always passes here because every value of type
`Response` is a response object.  A status outside `range(200, 300)`
fails the `assert` inside the `try`, and a body that cannot be parsed
makes `response.json()` raise; both exceptions are caught and the raw
response is returned after logging. -/
def display_response (response : Response) (parse_json : Bool) : ApiResult :=
  if 200 ≤ response.status_code ∧ response.status_code < 300 then
    if parse_json then
      match response.body with
      | some data => ApiResult.json data
      | none => ApiResult.raw response
    else ApiResult.raw response
  else ApiResult.raw response

/-- The service's rate-limit status code (line 92). -/
def rate_limit_status_code : Nat := 429

/-- Embeds the boolean result of `CalculationEngineApi.rate_limiter`
(lines 91-96): `True` exactly when the response carries the rate-limit
status code. -/
def rate_limiter (response : Response) : Bool :=
  response.status_code == rate_limit_status_code

/-- Duration of the sleep performed by `rate_limiter` before a resend:
`1.0 / self.conf['api_rate_limit']` seconds, modelled as a rational. -/
def sleep_duration (api_rate_limit : Nat) : ℚ :=
  1 / (api_rate_limit : ℚ)

/-- Embeds the `while True: send; if not self.rate_limiter(response): break`
pattern wrapping every outbound request (e.g. lines 101-112).  `net i` is
the server's response to the i-th attempt; the result records how many
attempts were made, the sleeps performed (one of `sleep_duration` per
rate-limited attempt, in order), and the final non-rate-limited response.
`none` models the loop never obtaining a non-rate-limited response within
the given fuel. -/
def send_with_rate_limit (net : Nat → Response) (api_rate_limit : Nat) :
    Nat → Nat → Option (Nat × List ℚ × Response)
  | 0, _ => none
  | fuel + 1, i =>
    if rate_limiter (net i) then
      match send_with_rate_limit net api_rate_limit fuel (i + 1) with
      | some (attempts, sleeps, r) =>
          some (attempts, sleep_duration api_rate_limit :: sleeps, r)
      | none => none
    else some (i + 1, [], net i)

/-- A whole retry loop, starting from the first attempt. -/
def request_with_retry (net : Nat → Response) (api_rate_limit fuel : Nat) :
    Option (Nat × List ℚ × Response) :=
  send_with_rate_limit net api_rate_limit fuel 0

/-- The response finally obtained by a retry loop, forgetting the
attempt count and the sleeps. -/
def fetch_response (net : Nat → Response) (api_rate_limit fuel : Nat) :
    Option Response :=
  Option.map (fun t => t.2.2) (request_with_retry net api_rate_limit fuel)

/-- Embeds Python `random.randrange(lo, hi)` (used at line 100): an
externally chosen integer in `[lo, hi)`, here determined by an arbitrary
entropy seed. -/
def randrange (lo hi seed : Nat) : Nat :=
  lo + seed % (hi - lo)

/-- Embeds lines 99-100 of `job_create`: an empty (falsy) name is replaced
by an auto-generated one. -/
def job_create_name (name : String) (seed : Nat) : String :=
  if name = "" then "test-" ++ toString (randrange 10000 99999 seed) else name

/-- Embeds the JSON payload built by `job_create` (lines 104-108). -/
def job_create_payload (name description : String) (config : Json) (seed : Nat) : Json :=
  Json.obj [("name", Json.str (job_create_name name seed)),
            ("config", config),
            ("description", Json.str description)]

/-- Outcome of one client call that goes through the retry loop: the JSON
payload that was sent, the number of request attempts, the sleeps
performed, and the processed result. -/
structure CallResult where
  payload : Json
  attempts : Nat
  sleeps : List ℚ
  result : ApiResult

/-- Embeds `CalculationEngineApi.job_create` (lines 98-113): build the
name and payload, POST it under the retry loop, and return
`display_response(response)`. -/
def job_create (net : Nat → Response) (api_rate_limit fuel : Nat)
    (name description : String) (config : Json) (seed : Nat) : Option CallResult :=
  Option.map
    (fun t => CallResult.mk (job_create_payload name description config seed)
      t.1 t.2.1 (display_response t.2.2 true))
    (request_with_retry net api_rate_limit fuel)

/-- Result of a list method: the aggregated page results (no uuid given),
the parsed data of a single resource (uuid given), or the raw response
when the initial request has a non-success status. -/
inductive ListResult where
  | items (xs : List Json) : ListResult
  | single (data : Json) : ListResult
  | raw (response : Response) : ListResult

/-- Embeds the pagination loop `while url:` shared by `job_list`
(lines 161-171), `upload_list` (lines 197-207) and `get_metrics`
(lines 367-377): while the cursor is truthy, GET it under the retry loop,
parse the body, append its `results` to the accumulator and move the
cursor to its `next`.  These inner page requests have no status check in
the source.  `none` models an uncaught exception (unparsable body,
missing `results`/`next` key, or `results` not an array) or running out
of fuel. -/
def page_loop (fetch : Json → Nat → Response) (rate rfuel : Nat) :
    Nat → Json → List Json → Option (List Json)
  | 0, _, _ => none
  | pfuel + 1, url, acc =>
    if url.truthy then
      match fetch_response (fetch url) rate rfuel with
      | none => none
      | some response =>
        match response.body with
        | none => none
        | some response_data =>
          match response_data.getField "results", response_data.getField "next" with
          | some (Json.arr results), some next =>
              page_loop fetch rate rfuel pfuel next (acc ++ results)
          | _, _ => none
    else some acc

/-- Embeds `CalculationEngineApi.job_list` (lines 138-172) and the
textually identical `upload_list` (lines 174-208): build the URL
(appending the uuid when one is given), GET it under the retry loop,
return the raw response on a non-success status, return the parsed data
for a single-resource lookup, and otherwise follow the pagination
cursor starting from the first page's `results` and `next`. -/
def list_resource (fetch : Json → Nat → Response) (rate : Nat)
    (base_url uuid : String) (rfuel pfuel : Nat) : Option ListResult :=
  let url := if uuid = "" then base_url else base_url ++ uuid ++ "/"
  match fetch_response (fetch (Json.str url)) rate rfuel with
  | none => none
  | some response =>
    if 200 ≤ response.status_code ∧ response.status_code < 300 then
      match response.body with
      | none => none
      | some response_data =>
        if uuid = "" then
          match response_data.getField "results", response_data.getField "next" with
          | some (Json.arr results), some next =>
              Option.map ListResult.items
                (page_loop fetch rate rfuel pfuel next results)
          | _, _ => none
        else some (ListResult.single response_data)
    else some (ListResult.raw response)

/-- Embeds `CalculationEngineApi.job_list` (lines 138-172). -/
def job_list (fetch : Json → Nat → Response) (rate : Nat)
    (base_url uuid : String) (rfuel pfuel : Nat) : Option ListResult :=
  list_resource fetch rate base_url uuid rfuel pfuel

/-- Embeds `CalculationEngineApi.upload_list` (lines 174-208), whose body
is character-for-character that of `job_list` up to variable naming. -/
def upload_list (fetch : Json → Nat → Response) (rate : Nat)
    (base_url uuid : String) (rfuel pfuel : Nat) : Option ListResult :=
  list_resource fetch rate base_url uuid rfuel pfuel

/-- Embeds `CalculationEngineApi.get_metrics` (lines 364-378): the whole
body is one `while url:` cursor loop starting from the metrics URL with
an empty accumulator; unlike `job_list` there is no status check at
all. -/
def get_metrics (fetch : Json → Nat → Response) (rate : Nat)
    (base_url : String) (rfuel pfuel : Nat) : Option (List Json) :=
  page_loop fetch rate rfuel pfuel (Json.str base_url) []

/-- A Python value passed as an optional keyword argument to the update
methods: `None`, a `bool`, an `int`, or a `str`.  `isinstance(v, bool)`
holds exactly for the `bool` constructor (Python's `True`/`False` only;
an `int` is not a `bool` here, matching `isinstance`). -/
inductive PyVal where
  | none : PyVal
  | bool (b : Bool) : PyVal
  | int (n : Int) : PyVal
  | str (s : String) : PyVal
  deriving DecidableEq

/-- Embeds the payload construction of `upload_file_update`
(lines 232-238): start from an empty dict; a non-`None` `public` must be
a `bool` (else the `assert` raises, modelled by `none`) and is added
first; a non-`None` `description` must be a `str` and is added second. -/
def upload_file_update_data (public description : PyVal) :
    Option (List (String × PyVal)) :=
  let step1 : Option (List (String × PyVal)) :=
    match public with
    | PyVal.none => some []
    | PyVal.bool b => some [("public", PyVal.bool b)]
    | _ => none
  match step1 with
  | Option.none => none
  | some data =>
    match description with
    | PyVal.none => some data
    | PyVal.str s => some (data ++ [("description", PyVal.str s)])
    | _ => none

/-- Embeds the payload construction of `update_job` (lines 295-301):
`saved` is checked and added first, then `public`; each non-`None` value
must be a `bool` or the `assert` raises. -/
def update_job_data (saved public : PyVal) :
    Option (List (String × PyVal)) :=
  let step1 : Option (List (String × PyVal)) :=
    match saved with
    | PyVal.none => some []
    | PyVal.bool b => some [("saved", PyVal.bool b)]
    | _ => none
  match step1 with
  | Option.none => none
  | some data =>
    match public with
    | PyVal.none => some data
    | PyVal.bool b => some (data ++ [("public", PyVal.bool b)])
    | _ => none

/-- Outcome of an update call: the form/JSON payload that was sent, the
number of request attempts, the sleeps, and the processed result. -/
structure FormCallResult where
  data : List (String × PyVal)
  attempts : Nat
  sleeps : List ℚ
  result : ApiResult

/-- Embeds `CalculationEngineApi.upload_file_update` (lines 230-249): the
payload is built (raising `AssertionError` on a type violation) before
the retry loop sends any request; the final response goes through
`display_response` with the caller's `parse_json`. -/
def upload_file_update (net : Nat → Response) (api_rate_limit fuel : Nat)
    (public description : PyVal) (parse_json : Bool) : Option FormCallResult :=
  match upload_file_update_data public description with
  | Option.none => none
  | some data =>
    Option.map
      (fun t => FormCallResult.mk data t.1 t.2.1 (display_response t.2.2 parse_json))
      (request_with_retry net api_rate_limit fuel)

/-- Embeds `CalculationEngineApi.update_job` (lines 293-310): the payload
is built (raising `AssertionError` on a type violation) before the retry
loop sends any request; the final response goes through
`display_response`. -/
def update_job (net : Nat → Response) (api_rate_limit fuel : Nat)
    (saved public : PyVal) : Option FormCallResult :=
  match update_job_data saved public with
  | Option.none => none
  | some data =>
    Option.map
      (fun t => FormCallResult.mk data t.1 t.2.1 (display_response t.2.2 true))
      (request_with_retry net api_rate_limit fuel)

/-- Embeds the polling loop of `monitor_job` (`utils.py` lines 45-58).
`statuses i` is what the i-th `api.job_list(uuid=job_id)` call produces:
`some j` for a parsed JSON result, `none` when the call raises (any such
exception is caught by the surrounding `try` and turns the whole call
into Python `None`).  `elapsed i` is `time.time() - start_time` right
after the i-th fetch.  The result `some (n, r)` gives the number of
fetches performed and the Python return value (`some` the last status
object, `none` for Python `None`); an outer `none` is the loop not
finishing within the fuel. -/
def monitor_loop (statuses : Nat → Option Json) (elapsed : Nat → ℚ)
    (time_limit : ℚ) : Nat → Nat → Option (Nat × Option Json)
  | 0, _ => none
  | fuel + 1, i =>
    match statuses i with
    | Option.none => some (i + 1, none)
    | some job_status =>
      match job_status.getField "status" with
      | Option.none => some (i + 1, none)
      | some st =>
        if st.isStr "SUCCESS" || st.isStr "FAILURE" then
          some (i + 1, some job_status)
        else if time_limit < elapsed i then some (i + 1, some job_status)
        else monitor_loop statuses elapsed time_limit fuel (i + 1)

/-- Embeds `monitor_job` (`utils.py` lines 22-63): run the polling loop
from the first fetch. -/
def monitor_job (statuses : Nat → Option Json) (elapsed : Nat → ℚ)
    (time_limit : ℚ) (fuel : Nat) : Option (Nat × Option Json) :=
  monitor_loop statuses elapsed time_limit fuel 0

/-- Outcome of `download_successful_job`: the paths for which
`api.download_job_file` was invoked (SUCCESS branch), the printed error
info (FAILURE branch), or the unexpected-status message. -/
inductive JobDownloadOutcome where
  | downloaded (paths : List Json) : JobDownloadOutcome
  | failurePrinted (error_info : Json) : JobDownloadOutcome
  | unexpectedPrinted : JobDownloadOutcome

/-- Embeds the manifest iteration of `download_successful_job`
(`utils.py` lines 92-95): each entry's `path` is printed (raising
`KeyError` when absent, even for entries that end up skipped), then the
entry is downloaded exactly when `file_info['size'] > 0`.  A JSON `true`
compares as `1 > 0` in Python, so a boolean size is kept faithful; any
other size type makes `> 0` raise `TypeError` (`none`). -/
def download_files : List Json → Option (List Json)
  | [] => some []
  | file_info :: rest =>
    match file_info.getField "path" with
    | Option.none => none
    | some p =>
      match file_info.getField "size" with
      | some (Json.num n) =>
        if 0 < n then Option.map (fun ps => p :: ps) (download_files rest)
        else download_files rest
      | some (Json.bool b) =>
        if b then Option.map (fun ps => p :: ps) (download_files rest)
        else download_files rest
      | _ => none

/-- Embeds `download_successful_job` (`utils.py` lines 65-102): dispatch
on `job_status['status']`.  In the SUCCESS branch the code iterates over
`job_status['files']`; iterating an empty string or empty dict yields no
entries, while any other non-array value raises on its first entry's
`['path']` subscript. -/
def download_successful_job (job_status : Json) : Option JobDownloadOutcome :=
  match job_status.getField "status" with
  | Option.none => none
  | some st =>
    if st.isStr "SUCCESS" then
      match job_status.getField "files" with
      | some (Json.arr files) =>
          Option.map JobDownloadOutcome.downloaded (download_files files)
      | some (Json.str s) =>
          if s.isEmpty then some (JobDownloadOutcome.downloaded []) else none
      | some (Json.obj fs) =>
          if fs.isEmpty then some (JobDownloadOutcome.downloaded []) else none
      | _ => none
    else if st.isStr "FAILURE" then
      match job_status.getField "error_info" with
      | Option.none => none
      | some e => some (JobDownloadOutcome.failurePrinted e)
    else some JobDownloadOutcome.unexpectedPrinted

/-- Python `str.strip('/')`: drop leading and trailing slashes. -/
def stripSlashes (s : String) : String :=
  String.mk (((s.toList.dropWhile (fun c => c == '/')).reverse.dropWhile
    (fun c => c == '/')).reverse)

/-- Substring test on character lists, for Python `'path' in some_string`. -/
def isInfixList (p : List Char) : List Char → Bool
  | [] => p.isEmpty
  | c :: rest => p.isPrefixOf (c :: rest) || isInfixList p rest

/-- Python `key in container` for a JSON container: key membership for a
dict, element equality for a list, substring test for a string; any other
type raises `TypeError` (`none`). -/
def pyContainsStr (container : Json) (key : String) : Option Bool :=
  match container with
  | Json.obj fields => some (fields.any (fun f => f.1 == key))
  | Json.arr xs => some (xs.any (fun x => x.isStr key))
  | Json.str s => some (isInfixList key.toList s.toList)
  | _ => none

/-- Outcome of `download_uploaded_file`: either the early return that
writes nothing, or a file written at the computed local path. -/
inductive UploadDownloadOutcome where
  | noFile : UploadDownloadOutcome
  | wrote (file_path : String) : UploadDownloadOutcome

/-- Embeds `CalculationEngineApi.download_uploaded_file` (lines 264-280):
look the upload up via `upload_list`; when `'path' not in upload`, log
and return without writing.  Otherwise strip the stored path, build the
local file path, stream the download (`dl k` is the response of the k-th
restart; a rate-limited response triggers the self-recursive retry), let
`raise_for_status` propagate 4xx/5xx, and otherwise write the file.
`none` models an uncaught exception (e.g. `'path' in upload` applied to a
raw `Response`, a non-string stored path, or `raise_for_status`) or
running out of restart fuel. -/
def download_uploaded_file (fetch : Json → Nat → Response) (dl : Nat → Response)
    (rate : Nat) (upload_base_url uuid root_dir : String) (rfuel pfuel : Nat) :
    Nat → Option UploadDownloadOutcome
  | 0 => none
  | dfuel + 1 =>
    match upload_list fetch rate upload_base_url uuid rfuel pfuel with
    | Option.none => none
    | some (ListResult.raw _) => none
    | some (ListResult.items xs) =>
      if xs.any (fun x => x.isStr "path") then none
      else some UploadDownloadOutcome.noFile
    | some (ListResult.single upload) =>
      match pyContainsStr upload "path" with
      | Option.none => none
      | some false => some UploadDownloadOutcome.noFile
      | some true =>
        match upload.getField "path" with
        | some (Json.str p) =>
          let path := stripSlashes p
          let file_path := root_dir ++ "/" ++ uuid ++ "/" ++ path
          if rate_limiter (dl dfuel) then
            download_uploaded_file fetch dl rate upload_base_url uuid root_dir
              rfuel pfuel dfuel
          else if 400 ≤ (dl dfuel).status_code ∧ (dl dfuel).status_code < 600 then
            none
          else some (UploadDownloadOutcome.wrote file_path)
        | _ => none

/-- Specification helper (from the claim's wording): a manifest entry
whose `size` is a non-zero integer. -/
def manifestNonzero (f : Json) : Bool :=
  match f.getField "size" with
  | some (Json.num n) => n != 0
  | _ => false

/-- Specification helper (from the claim's wording): the `path` values of
the manifest entries with non-zero size, in manifest order. -/
def nonzeroPaths (fs : List Json) : List Json :=
  (fs.filter manifestNonzero).filterMap (fun f => f.getField "path")

/-- Oracle answering every request with a 404 whose body is an error
object with no `results` key. -/
def c4Fetch (_url : Json) (_attempt : Nat) : Response :=
  Response.mk 404 (some (Json.obj [("detail", Json.str "Not found")]))

/-- Oracle answering every request with a success whose body is an upload
record lacking a `path` field. -/
def c5Fetch (_url : Json) (_attempt : Nat) : Response :=
  Response.mk 200 (some (Json.obj [("description", Json.str "d")]))

/-- Concrete two-page server used to exercise the pagination claims:
cursor chain `"U" → "U2" → ""`. -/
def c1Page (i : Nat) : Json :=
  match i with
  | 0 => Json.str "U"
  | 1 => Json.str "U2"
  | _ => Json.str ""

/-- Result batches of the two concrete pages. -/
def c1Batch (i : Nat) : List Json :=
  match i with
  | 0 => [Json.num 1, Json.num 2]
  | _ => [Json.num 3]

/-- Bodies of the two concrete pages. -/
def c1Body (i : Nat) : Json :=
  Json.obj [("results", Json.arr (c1Batch i)), ("next", c1Page (i + 1))]

/-- Successful responses carrying the two concrete pages. -/
def c1Resp (i : Nat) : Response :=
  Response.mk 200 (some (c1Body i))

/-- URL-keyed oracle serving the two concrete pages. -/
def c1Fetch (url : Json) (_attempt : Nat) : Response :=
  if url.isStr "U" then c1Resp 0
  else if url.isStr "U2" then c1Resp 1
  else Response.mk 404 none

/-- With `N` rate-limited responses followed by a non-rate-limited one and
enough fuel, the retry loop makes exactly `N + 1` attempts, sleeps `N`
times, and returns the first non-rate-limited response. -/
theorem send_with_rate_limit_spec (net : Nat → Response) (rate : Nat) :
    ∀ (N fuel i : Nat),
      (∀ j, j < N → rate_limiter (net (i + j)) = true) →
      rate_limiter (net (i + N)) = false →
      N < fuel →
      send_with_rate_limit net rate fuel i =
        some (i + N + 1, List.replicate N (sleep_duration rate), net (i + N)) := by
  intro N
  induction N with
  | zero =>
    intro fuel i _ hstop hfuel
    match fuel, hfuel with
    | fuel + 1, _ =>
      simp only [Nat.add_zero] at hstop
      simp [send_with_rate_limit, hstop]
  | succ N ih =>
    intro fuel i hlim hstop hfuel
    match fuel, hfuel with
    | fuel + 1, hfuel =>
      have h0 : rate_limiter (net i) = true := by
        have := hlim 0 (Nat.succ_pos N)
        simpa using this
      have hrec := ih fuel (i + 1)
        (fun j hj => by
          have := hlim (j + 1) (Nat.succ_lt_succ hj)
          have harith : i + (j + 1) = i + 1 + j := by omega
          rwa [harith] at this)
        (by
          have harith : i + 1 + N = i + (N + 1) := by omega
          rw [harith]; exact hstop)
        (Nat.lt_of_succ_lt_succ hfuel)
      have harith : i + 1 + N = i + (N + 1) := by omega
      rw [harith] at hrec
      simp [send_with_rate_limit, h0, hrec, List.replicate_succ]

/-- If every response is rate-limited, the retry loop never returns, no
matter the fuel: there is no maximum retry count. -/
theorem send_with_rate_limit_unbounded (net : Nat → Response) (rate : Nat)
    (hall : ∀ j, rate_limiter (net j) = true) :
    ∀ (fuel i : Nat), send_with_rate_limit net rate fuel i = none := by
  intro fuel
  induction fuel with
  | zero => intro i; rfl
  | succ fuel ih =>
    intro i
    simp [send_with_rate_limit, hall i, ih (i + 1)]

/-- Splitting the concatenation of `n + 1` batches at the first batch. -/
theorem range_bind_succ {α : Type} (rs : Nat → List α) (n : Nat) :
    (List.range (n + 1)).flatMap rs = rs 0 ++ (List.range n).flatMap (fun i => rs (i + 1)) := by
  have h : ∀ (l : List Nat), (l.map (· + 1)).flatMap rs = l.flatMap (fun i => rs (i + 1)) := by
    intro l
    induction l with
    | nil => rfl
    | cons a l ih => simp [List.map_cons, ih]
  rw [List.range_succ_eq_map]
  simpa [Nat.succ_eq_add_one] using h (List.range n)

/-- The pagination cursor loop: if the cursor chain `u 0, u 1, ...` has
its first `m` cursors truthy with the `(m+1)`-th falsy, and fetching
cursor `i` yields a success page with `results` batch `rs i` and `next`
cursor `u (i + 1)`, then the loop returns the accumulator followed by the
concatenation of all batches in encounter order. -/
theorem page_loop_chain (fetch : Json → Nat → Response) (rate rfuel : Nat) :
    ∀ (m : Nat) (u : Nat → Json) (rs : Nat → List Json) (resp : Nat → Response)
      (bd : Nat → Json) (acc : List Json) (pfuel : Nat),
      m < pfuel →
      (∀ i, i < m → (u i).truthy = true) →
      (u m).truthy = false →
      (∀ i, i < m → fetch_response (fetch (u i)) rate rfuel = some (resp i)) →
      (∀ i, i < m → (resp i).body = some (bd i)) →
      (∀ i, i < m → (bd i).getField "results" = some (Json.arr (rs i))) →
      (∀ i, i < m → (bd i).getField "next" = some (u (i + 1))) →
      page_loop fetch rate rfuel pfuel (u 0) acc =
        some (acc ++ (List.range m).flatMap rs) := by
  intro m
  induction m with
  | zero =>
    intro u rs resp bd acc pfuel hfuel _ hstop _ _ _ _
    match pfuel, hfuel with
    | pfuel + 1, _ =>
      simp [page_loop, hstop]
  | succ m ih =>
    intro u rs resp bd acc pfuel hfuel htruthy hstop hfetch hbody hres hnext
    match pfuel, hfuel with
    | pfuel + 1, hfuel =>
      have h0 : (u 0).truthy = true := htruthy 0 (Nat.succ_pos m)
      have hf0 := hfetch 0 (Nat.succ_pos m)
      have hb0 := hbody 0 (Nat.succ_pos m)
      have hr0 := hres 0 (Nat.succ_pos m)
      have hn0 := hnext 0 (Nat.succ_pos m)
      have hrec := ih (fun i => u (i + 1)) (fun i => rs (i + 1))
        (fun i => resp (i + 1)) (fun i => bd (i + 1)) (acc ++ rs 0) pfuel
        (Nat.lt_of_succ_lt_succ hfuel)
        (fun i hi => htruthy (i + 1) (Nat.succ_lt_succ hi))
        hstop
        (fun i hi => hfetch (i + 1) (Nat.succ_lt_succ hi))
        (fun i hi => hbody (i + 1) (Nat.succ_lt_succ hi))
        (fun i hi => hres (i + 1) (Nat.succ_lt_succ hi))
        (fun i hi => hnext (i + 1) (Nat.succ_lt_succ hi))
      simp only [page_loop, h0, if_pos, hf0, hb0, hr0, hn0]
      rw [hrec, range_bind_succ rs m]
      simp [List.append_assoc]

/-- C2: for every outbound client call (represented by `job_create`, whose
retry loop is the shared pattern), given responses whose first `N` carry
the rate-limit status 429 and whose `(N+1)`-th is a success, the client
performs exactly `N + 1` attempts, sleeps `1 / api_rate_limit` seconds
after each rate-limited attempt, and returns the processed success
response; and the retry loop has no maximum retry count: an indefinitely
rate-limited server makes the call never return, whatever the fuel. -/
theorem C2_rate_limit_retry :
    (∀ (net : Nat → Response) (rate fuel : Nat) (name description : String)
       (config : Json) (seed N : Nat),
      (∀ i, i < N → (net i).status_code = rate_limit_status_code) →
      200 ≤ (net N).status_code → (net N).status_code < 300 →
      N < fuel →
      job_create net rate fuel name description config seed =
        some (CallResult.mk (job_create_payload name description config seed)
          (N + 1) (List.replicate N (sleep_duration rate))
          (display_response (net N) true))) ∧
    (∀ (net : Nat → Response) (rate fuel : Nat) (name description : String)
       (config : Json) (seed : Nat),
      (∀ i, (net i).status_code = rate_limit_status_code) →
      job_create net rate fuel name description config seed = none) := by
  constructor
  · intro net rate fuel name description config seed N hlim hlo hhi hfuel
    have hsend := send_with_rate_limit_spec net rate N fuel 0
      (fun j hj => by simp [rate_limiter, hlim j hj])
      (by
        simp only [Nat.zero_add]
        simp only [rate_limiter, rate_limit_status_code, beq_eq_false_iff_ne,
          ne_eq]
        omega)
      hfuel
    simp only [Nat.zero_add] at hsend
    simp [job_create, request_with_retry, hsend]
  · intro net rate fuel name description config seed hall
    have hsend := send_with_rate_limit_unbounded net rate
      (fun j => by simp [rate_limiter, hall j]) fuel 0
    simp [job_create, request_with_retry, hsend]

/-- Witness for C2: two rate-limited responses then a success give three
attempts and two sleeps; an always-rate-limited server gives no return. -/
theorem C2_rate_limit_retry_witness :
    job_create (fun i => if i < 2 then Response.mk 429 none
        else Response.mk 200 (some Json.null)) 2 5 "j" "" Json.null 0 =
      some (CallResult.mk (job_create_payload "j" "" Json.null 0) (2 + 1)
        (List.replicate 2 (sleep_duration 2))
        (display_response ((fun i => if i < 2 then Response.mk 429 none
          else Response.mk 200 (some Json.null)) 2) true)) ∧
    job_create (fun _ => Response.mk 429 none) 2 7 "j" "" Json.null 0 = none :=
  ⟨C2_rate_limit_retry.1 (fun i => if i < 2 then Response.mk 429 none
      else Response.mk 200 (some Json.null)) 2 5 "j" "" Json.null 0 2
      (by decide) (by decide) (by decide) (by decide),
   C2_rate_limit_retry.2 (fun _ => Response.mk 429 none) 2 7 "j" "" Json.null 0
      (fun _ => rfl)⟩

/-- C3: the response handler `display_response` is total (it never
raises): on a 2xx status with JSON parsing requested and a parsable body
it returns the parsed JSON; on any non-2xx status, or whenever the body
fails to parse, it returns the raw response object. -/
theorem C3_display_response_total (response : Response) (parse_json : Bool) :
    (∀ data, 200 ≤ response.status_code → response.status_code < 300 →
      parse_json = true → response.body = some data →
      display_response response parse_json = ApiResult.json data) ∧
    (¬(200 ≤ response.status_code ∧ response.status_code < 300) →
      display_response response parse_json = ApiResult.raw response) ∧
    (response.body = none →
      display_response response parse_json = ApiResult.raw response) := by
  refine ⟨?_, ?_, ?_⟩
  · intro data h1 h2 hpj hbody
    simp [display_response, h1, h2, hpj, hbody]
  · intro h
    simp [display_response, h]
  · intro hbody
    by_cases h : 200 ≤ response.status_code ∧ response.status_code < 300
    · cases parse_json <;> simp [display_response, h, hbody]
    · simp [display_response, h]

/-- Witness for C3: a 204 response with a parsable body parses; a 404
response and an unparsable 200 body both come back raw. -/
theorem C3_display_response_total_witness :
    display_response (Response.mk 204 (some (Json.num 5))) true =
      ApiResult.json (Json.num 5) ∧
    display_response (Response.mk 404 (some (Json.num 5))) true =
      ApiResult.raw (Response.mk 404 (some (Json.num 5))) ∧
    display_response (Response.mk 200 none) true =
      ApiResult.raw (Response.mk 200 none) :=
  ⟨(C3_display_response_total (Response.mk 204 (some (Json.num 5))) true).1
      (Json.num 5) (by decide) (by decide) rfl rfl,
   (C3_display_response_total (Response.mk 404 (some (Json.num 5))) true).2.1
      (by decide),
   (C3_display_response_total (Response.mk 200 none) true).2.2 rfl⟩

/-- C7: a `job_create` call with an empty name sends an auto-generated
name of the form `test-XXXXX` with `XXXXX` an integer in
`[10000, 99999)`; and whatever the call returns carries exactly that
payload. -/
theorem C7_job_create_empty_name :
    (∀ (description : String) (config : Json) (seed : Nat),
      ∃ r, 10000 ≤ r ∧ r < 99999 ∧
        (job_create_payload "" description config seed).getField "name" =
          some (Json.str ("test-" ++ toString r))) ∧
    (∀ (net : Nat → Response) (rate fuel : Nat) (description : String)
       (config : Json) (seed : Nat) (res : CallResult),
      job_create net rate fuel "" description config seed = some res →
      res.payload = job_create_payload "" description config seed) := by
  constructor
  · intro description config seed
    refine ⟨randrange 10000 99999 seed, ?_, ?_, rfl⟩
    · unfold randrange
      omega
    · unfold randrange
      have : seed % (99999 - 10000) < 99999 - 10000 :=
        Nat.mod_lt seed (by norm_num)
      omega
  · intro net rate fuel description config seed res h
    simp only [job_create, Option.map_eq_some'] at h
    obtain ⟨t, _, rfl⟩ := h
    rfl

/-- Witness for C7: with seed 89999 the generated value wraps to 10000,
and a one-shot success call reports the generated payload. -/
theorem C7_job_create_empty_name_witness :
    (∃ r, 10000 ≤ r ∧ r < 99999 ∧
      (job_create_payload "" "" Json.null 89999).getField "name" =
        some (Json.str ("test-" ++ toString r))) ∧
    CallResult.payload
        (CallResult.mk (job_create_payload "" "" Json.null 89999) 1 []
          (display_response (Response.mk 200 (some Json.null)) true)) =
      job_create_payload "" "" Json.null 89999 :=
  ⟨C7_job_create_empty_name.1 "" Json.null 89999,
   C7_job_create_empty_name.2 (fun _ => Response.mk 200 (some Json.null)) 2 1 ""
     Json.null 89999
     (CallResult.mk (job_create_payload "" "" Json.null 89999) 1 []
       (display_response (Response.mk 200 (some Json.null)) true)) rfl⟩

/-- C1: for each paginated list operation (`job_list` with no uuid,
`upload_list` with no uuid, `get_metrics`), if every page request
eventually yields (through the retry loop) a successful response whose
body has a `results` array and a `next` cursor, and the cursor chain
ends with a falsy `next`, then the returned value is the concatenation,
in encounter order, of the `results` arrays of all pages — no batch
duplicated, none lost — and the loop stops exactly at the falsy
cursor. -/
theorem C1_paginated_lists :
    (∀ (fetch : Json → Nat → Response) (rate : Nat) (base_url : String)
       (u : Nat → Json) (rs : Nat → List Json) (resp : Nat → Response)
       (bd : Nat → Json) (n rfuel pfuel : Nat),
      u 0 = Json.str base_url →
      (∀ i, i ≤ n → fetch_response (fetch (u i)) rate rfuel = some (resp i)) →
      (∀ i, i ≤ n → 200 ≤ (resp i).status_code ∧ (resp i).status_code < 300) →
      (∀ i, i ≤ n → (resp i).body = some (bd i)) →
      (∀ i, i ≤ n → (bd i).getField "results" = some (Json.arr (rs i))) →
      (∀ i, i ≤ n → (bd i).getField "next" = some (u (i + 1))) →
      (∀ i, 1 ≤ i → i ≤ n → (u i).truthy = true) →
      (u (n + 1)).truthy = false →
      n < pfuel →
      job_list fetch rate base_url "" rfuel pfuel =
        some (ListResult.items ((List.range (n + 1)).flatMap rs))) ∧
    (∀ (fetch : Json → Nat → Response) (rate : Nat) (base_url : String)
       (u : Nat → Json) (rs : Nat → List Json) (resp : Nat → Response)
       (bd : Nat → Json) (n rfuel pfuel : Nat),
      u 0 = Json.str base_url →
      (∀ i, i ≤ n → fetch_response (fetch (u i)) rate rfuel = some (resp i)) →
      (∀ i, i ≤ n → 200 ≤ (resp i).status_code ∧ (resp i).status_code < 300) →
      (∀ i, i ≤ n → (resp i).body = some (bd i)) →
      (∀ i, i ≤ n → (bd i).getField "results" = some (Json.arr (rs i))) →
      (∀ i, i ≤ n → (bd i).getField "next" = some (u (i + 1))) →
      (∀ i, 1 ≤ i → i ≤ n → (u i).truthy = true) →
      (u (n + 1)).truthy = false →
      n < pfuel →
      upload_list fetch rate base_url "" rfuel pfuel =
        some (ListResult.items ((List.range (n + 1)).flatMap rs))) ∧
    (∀ (fetch : Json → Nat → Response) (rate : Nat) (base_url : String)
       (u : Nat → Json) (rs : Nat → List Json) (resp : Nat → Response)
       (bd : Nat → Json) (n rfuel pfuel : Nat),
      u 0 = Json.str base_url →
      (∀ i, i ≤ n → fetch_response (fetch (u i)) rate rfuel = some (resp i)) →
      (∀ i, i ≤ n → 200 ≤ (resp i).status_code ∧ (resp i).status_code < 300) →
      (∀ i, i ≤ n → (resp i).body = some (bd i)) →
      (∀ i, i ≤ n → (bd i).getField "results" = some (Json.arr (rs i))) →
      (∀ i, i ≤ n → (bd i).getField "next" = some (u (i + 1))) →
      (∀ i, i ≤ n → (u i).truthy = true) →
      (u (n + 1)).truthy = false →
      n + 1 < pfuel →
      get_metrics fetch rate base_url rfuel pfuel =
        some ((List.range (n + 1)).flatMap rs)) := by
  have hlist : ∀ (fetch : Json → Nat → Response) (rate : Nat) (base_url : String)
      (u : Nat → Json) (rs : Nat → List Json) (resp : Nat → Response)
      (bd : Nat → Json) (n rfuel pfuel : Nat),
      u 0 = Json.str base_url →
      (∀ i, i ≤ n → fetch_response (fetch (u i)) rate rfuel = some (resp i)) →
      (∀ i, i ≤ n → 200 ≤ (resp i).status_code ∧ (resp i).status_code < 300) →
      (∀ i, i ≤ n → (resp i).body = some (bd i)) →
      (∀ i, i ≤ n → (bd i).getField "results" = some (Json.arr (rs i))) →
      (∀ i, i ≤ n → (bd i).getField "next" = some (u (i + 1))) →
      (∀ i, 1 ≤ i → i ≤ n → (u i).truthy = true) →
      (u (n + 1)).truthy = false →
      n < pfuel →
      list_resource fetch rate base_url "" rfuel pfuel =
        some (ListResult.items ((List.range (n + 1)).flatMap rs)) := by
    intro fetch rate base_url u rs resp bd n rfuel pfuel h0 hfetch hstatus
      hbody hres hnext htruthy hstop hfuel
    have hf0 := hfetch 0 (Nat.zero_le n)
    rw [h0] at hf0
    have hb0 := hbody 0 (Nat.zero_le n)
    have hr0 := hres 0 (Nat.zero_le n)
    have hn0 := hnext 0 (Nat.zero_le n)
    have hchain := page_loop_chain fetch rate rfuel n (fun i => u (i + 1))
      (fun i => rs (i + 1)) (fun i => resp (i + 1)) (fun i => bd (i + 1))
      (rs 0) pfuel hfuel
      (fun i hi => htruthy (i + 1) (Nat.succ_le_succ (Nat.zero_le i))
        (Nat.succ_le_of_lt hi))
      hstop
      (fun i hi => hfetch (i + 1) (Nat.succ_le_of_lt hi))
      (fun i hi => hbody (i + 1) (Nat.succ_le_of_lt hi))
      (fun i hi => hres (i + 1) (Nat.succ_le_of_lt hi))
      (fun i hi => hnext (i + 1) (Nat.succ_le_of_lt hi))
    simp only [list_resource, reduceIte, hf0, hstatus 0 (Nat.zero_le n),
      and_self, if_true, hb0, hr0, hn0]
    rw [hchain, range_bind_succ rs n]
    rfl
  refine ⟨?_, ?_, ?_⟩
  · intro fetch rate base_url u rs resp bd n rfuel pfuel h0 hfetch hstatus
      hbody hres hnext htruthy hstop hfuel
    exact hlist fetch rate base_url u rs resp bd n rfuel pfuel h0 hfetch
      hstatus hbody hres hnext htruthy hstop hfuel
  · intro fetch rate base_url u rs resp bd n rfuel pfuel h0 hfetch hstatus
      hbody hres hnext htruthy hstop hfuel
    exact hlist fetch rate base_url u rs resp bd n rfuel pfuel h0 hfetch
      hstatus hbody hres hnext htruthy hstop hfuel
  · intro fetch rate base_url u rs resp bd n rfuel pfuel h0 hfetch _hstatus
      hbody hres hnext htruthy hstop hfuel
    have hchain := page_loop_chain fetch rate rfuel (n + 1) u rs resp bd
      [] pfuel hfuel
      (fun i hi => htruthy i (Nat.le_of_lt_succ hi))
      hstop
      (fun i hi => hfetch i (Nat.le_of_lt_succ hi))
      (fun i hi => hbody i (Nat.le_of_lt_succ hi))
      (fun i hi => hres i (Nat.le_of_lt_succ hi))
      (fun i hi => hnext i (Nat.le_of_lt_succ hi))
    rw [h0] at hchain
    simp only [get_metrics, hchain, List.nil_append]

/-- Witness for C1: the concrete two-page server: the aggregate of both
list operations and the metrics lister is the concatenation of the two
batches. -/
theorem C1_paginated_lists_witness :
    job_list c1Fetch 2 "U" "" 1 2 =
      some (ListResult.items ((List.range (1 + 1)).flatMap c1Batch)) ∧
    upload_list c1Fetch 2 "U" "" 1 2 =
      some (ListResult.items ((List.range (1 + 1)).flatMap c1Batch)) ∧
    get_metrics c1Fetch 2 "U" 1 3 =
      some ((List.range (1 + 1)).flatMap c1Batch) := by
  have hfetch : ∀ i, i ≤ 1 → fetch_response (c1Fetch (c1Page i)) 2 1 =
      some (c1Resp i) := by
    intro i hi
    interval_cases i <;> rfl
  have hstatus : ∀ i, i ≤ 1 →
      200 ≤ (c1Resp i).status_code ∧ (c1Resp i).status_code < 300 :=
    by
    intro i _
    show 200 ≤ 200 ∧ 200 < 300
    decide
  have hbody : ∀ i, i ≤ 1 → (c1Resp i).body = some (c1Body i) := fun i _ => rfl
  have hres : ∀ i, i ≤ 1 →
      (c1Body i).getField "results" = some (Json.arr (c1Batch i)) :=
    fun i _ => rfl
  have hnext : ∀ i, i ≤ 1 →
      (c1Body i).getField "next" = some (c1Page (i + 1)) := fun i _ => rfl
  have htruthy1 : ∀ i, 1 ≤ i → i ≤ 1 → (c1Page i).truthy = true := by
    intro i h1 h2
    interval_cases i
    rfl
  have htruthy0 : ∀ i, i ≤ 1 → (c1Page i).truthy = true := by
    intro i hi
    interval_cases i <;> rfl
  refine ⟨?_, ?_, ?_⟩
  · exact C1_paginated_lists.1 c1Fetch 2 "U" c1Page c1Batch c1Resp c1Body 1 1 2
      rfl hfetch hstatus hbody hres hnext htruthy1 rfl (by norm_num)
  · exact C1_paginated_lists.2.1 c1Fetch 2 "U" c1Page c1Batch c1Resp c1Body 1 1 2
      rfl hfetch hstatus hbody hres hnext htruthy1 rfl (by norm_num)
  · exact C1_paginated_lists.2.2 c1Fetch 2 "U" c1Page c1Batch c1Resp c1Body 1 1 3
      rfl hfetch hstatus hbody hres hnext htruthy0 rfl (by norm_num)

/-- C4 counterexample: the claim includes the metrics lister among the
methods returning non-success responses as-is, but `get_metrics` has no
status check: served a 404 whose body has no `results` key, it raises
`KeyError` (modelled by `none`) instead of returning the response — the
fuel is ample and the 404 is not rate-limited, so `none` is the
exception, not fuel exhaustion. -/
theorem C4_counterexample_get_metrics :
    (c4Fetch (Json.str "M") 0).status_code = 404 ∧
    get_metrics c4Fetch 2 "M" 5 5 = none :=
  ⟨rfl, rfl⟩

/-- C4 (amended): resource client methods whose responses go through
`display_response`, and the initial page request of the job and upload
listers, return a non-success (hence non-429, since the retry loop only
delivers non-429 responses) status as-is without raising; the metrics
lister is excluded.  `update_job` stands for the `display_response`-based
methods. -/
theorem C4_non_success_returned_as_is :
    (∀ (fetch : Json → Nat → Response) (rate : Nat) (base_url uuid : String)
       (rfuel pfuel : Nat) (r : Response),
      fetch_response
        (fetch (Json.str (if uuid = "" then base_url else base_url ++ uuid ++ "/")))
        rate rfuel = some r →
      ¬(200 ≤ r.status_code ∧ r.status_code < 300) →
      job_list fetch rate base_url uuid rfuel pfuel = some (ListResult.raw r)) ∧
    (∀ (fetch : Json → Nat → Response) (rate : Nat) (base_url uuid : String)
       (rfuel pfuel : Nat) (r : Response),
      fetch_response
        (fetch (Json.str (if uuid = "" then base_url else base_url ++ uuid ++ "/")))
        rate rfuel = some r →
      ¬(200 ≤ r.status_code ∧ r.status_code < 300) →
      upload_list fetch rate base_url uuid rfuel pfuel = some (ListResult.raw r)) ∧
    (∀ (net : Nat → Response) (rate fuel : Nat) (saved public : PyVal)
       (data : List (String × PyVal)) (t : Nat × List ℚ × Response),
      update_job_data saved public = some data →
      request_with_retry net rate fuel = some t →
      ¬(200 ≤ t.2.2.status_code ∧ t.2.2.status_code < 300) →
      update_job net rate fuel saved public =
        some (FormCallResult.mk data t.1 t.2.1 (ApiResult.raw t.2.2))) := by
  have hraw : ∀ (fetch : Json → Nat → Response) (rate : Nat)
      (base_url uuid : String) (rfuel pfuel : Nat) (r : Response),
      fetch_response
        (fetch (Json.str (if uuid = "" then base_url else base_url ++ uuid ++ "/")))
        rate rfuel = some r →
      ¬(200 ≤ r.status_code ∧ r.status_code < 300) →
      list_resource fetch rate base_url uuid rfuel pfuel =
        some (ListResult.raw r) := by
    intro fetch rate base_url uuid rfuel pfuel r hf hbad
    simp only [list_resource, hf, if_neg hbad]
  refine ⟨?_, ?_, ?_⟩
  · intro fetch rate base_url uuid rfuel pfuel r hf hbad
    exact hraw fetch rate base_url uuid rfuel pfuel r hf hbad
  · intro fetch rate base_url uuid rfuel pfuel r hf hbad
    exact hraw fetch rate base_url uuid rfuel pfuel r hf hbad
  · intro net rate fuel saved pub data t hdata hreq hbad
    simp only [update_job, hdata, hreq, Option.map_some', display_response,
      if_neg hbad]

/-- Witness for C4's amended statement: a 404 comes back raw from the
initial page request of both listers and from `update_job`. -/
theorem C4_non_success_returned_as_is_witness :
    job_list c4Fetch 2 "M" "" 1 1 =
      some (ListResult.raw (Response.mk 404
        (some (Json.obj [("detail", Json.str "Not found")])))) ∧
    upload_list c4Fetch 2 "M" "" 1 1 =
      some (ListResult.raw (Response.mk 404
        (some (Json.obj [("detail", Json.str "Not found")])))) ∧
    update_job (fun _ => Response.mk 404 none) 2 1 (PyVal.bool true) PyVal.none =
      some (FormCallResult.mk [("saved", PyVal.bool true)] 1 []
        (ApiResult.raw (Response.mk 404 none))) :=
  ⟨C4_non_success_returned_as_is.1 c4Fetch 2 "M" "" 1 1
      (Response.mk 404 (some (Json.obj [("detail", Json.str "Not found")])))
      rfl (by decide),
   C4_non_success_returned_as_is.2.1 c4Fetch 2 "M" "" 1 1
      (Response.mk 404 (some (Json.obj [("detail", Json.str "Not found")])))
      rfl (by decide),
   C4_non_success_returned_as_is.2.2 (fun _ => Response.mk 404 none) 2 1
      (PyVal.bool true) PyVal.none [("saved", PyVal.bool true)]
      (1, [], Response.mk 404 none) rfl rfl (by decide)⟩

/-- C5: when the upload record fetched by `upload_list` is a dict with no
`path` key, `download_uploaded_file` logs, returns without writing any
file, and no exception escapes (the outcome is the normal early return
`noFile`, not the exceptional `none`). -/
theorem C5_download_missing_path (fetch : Json → Nat → Response)
    (dl : Nat → Response) (rate : Nat) (upload_base_url uuid root_dir : String)
    (rfuel pfuel dfuel : Nat) (fields : List (String × Json))
    (hupload : upload_list fetch rate upload_base_url uuid rfuel pfuel =
      some (ListResult.single (Json.obj fields)))
    (hnopath : ∀ f, f ∈ fields → f.1 ≠ "path")
    (hfuel : 1 ≤ dfuel) :
    download_uploaded_file fetch dl rate upload_base_url uuid root_dir
      rfuel pfuel dfuel = some UploadDownloadOutcome.noFile := by
  match dfuel, hfuel with
  | dfuel + 1, _ =>
    have hcontains : (fields.any (fun f => f.1 == "path")) = false := by
      rw [List.any_eq_false]
      intro f hf
      simpa using hnopath f hf
    simp only [download_uploaded_file, hupload, pyContainsStr, hcontains]

/-- Witness for C5: a served upload record with only a `description`
field produces the early no-file return. -/
theorem C5_download_missing_path_witness :
    download_uploaded_file c5Fetch (fun _ => Response.mk 200 none) 2 "B" "u"
      "/tmp/ce/uploads" 1 1 1 = some UploadDownloadOutcome.noFile :=
  C5_download_missing_path c5Fetch (fun _ => Response.mk 200 none) 2 "B" "u"
    "/tmp/ce/uploads" 1 1 1 [("description", Json.str "d")] rfl
    (by decide) (by decide)

/-- Polling run: `k` consecutive well-formed non-terminal fetches with
the deadline first exceeded right after fetch `k` make the loop return
the `k`-th status object after `k + 1` fetches. -/
theorem monitor_loop_reaches (statuses : Nat → Option Json) (elapsed : Nat → ℚ)
    (time_limit : ℚ) (js st : Nat → Json) :
    ∀ (k fuel i : Nat),
      (∀ d, d ≤ k → statuses (i + d) = some (js (i + d))) →
      (∀ d, d ≤ k → (js (i + d)).getField "status" = some (st (i + d))) →
      (∀ d, d ≤ k → (st (i + d)).isStr "SUCCESS" = false) →
      (∀ d, d ≤ k → (st (i + d)).isStr "FAILURE" = false) →
      (∀ d, d < k → ¬(time_limit < elapsed (i + d))) →
      time_limit < elapsed (i + k) →
      k < fuel →
      monitor_loop statuses elapsed time_limit fuel i =
        some (i + k + 1, some (js (i + k))) := by
  intro k
  induction k with
  | zero =>
    intro fuel i hs hst hsu hfa _ hlate hfuel
    match fuel, hfuel with
    | fuel + 1, _ =>
      have h1 := hs 0 (Nat.le_refl 0)
      have h2 := hst 0 (Nat.le_refl 0)
      have h3 := hsu 0 (Nat.le_refl 0)
      have h4 := hfa 0 (Nat.le_refl 0)
      simp only [Nat.add_zero] at h1 h2 h3 h4 hlate
      simp [monitor_loop, h1, h2, h3, h4, hlate]
  | succ k ih =>
    intro fuel i hs hst hsu hfa hontime hlate hfuel
    match fuel, hfuel with
    | fuel + 1, hfuel =>
      have h1 := hs 0 (Nat.zero_le _)
      have h2 := hst 0 (Nat.zero_le _)
      have h3 := hsu 0 (Nat.zero_le _)
      have h4 := hfa 0 (Nat.zero_le _)
      have h5 := hontime 0 (Nat.succ_pos k)
      simp only [Nat.add_zero] at h1 h2 h3 h4 h5
      have hshift : ∀ d, i + 1 + d = i + (d + 1) := by intro d; omega
      have hrec := ih fuel (i + 1)
        (fun d hd => by rw [hshift d]; exact hs (d + 1) (Nat.succ_le_succ hd))
        (fun d hd => by rw [hshift d]; exact hst (d + 1) (Nat.succ_le_succ hd))
        (fun d hd => by rw [hshift d]; exact hsu (d + 1) (Nat.succ_le_succ hd))
        (fun d hd => by rw [hshift d]; exact hfa (d + 1) (Nat.succ_le_succ hd))
        (fun d hd => by rw [hshift d]; exact hontime (d + 1) (Nat.succ_lt_succ hd))
        (by rw [hshift k]; exact hlate)
        (Nat.lt_of_succ_lt_succ hfuel)
      rw [hshift k] at hrec
      simp [monitor_loop, h1, h2, h3, h4, h5, hrec]

/-- When every fetch produces a status object carrying a `status` field,
the polling loop never returns Python `None`. -/
theorem monitor_loop_no_none (statuses : Nat → Option Json) (elapsed : Nat → ℚ)
    (time_limit : ℚ)
    (hwf : ∀ i, ∃ j s, statuses i = some j ∧ j.getField "status" = some s) :
    ∀ (fuel i n : Nat),
      monitor_loop statuses elapsed time_limit fuel i = some (n, none) → False := by
  intro fuel
  induction fuel with
  | zero => intro i n h; exact Option.noConfusion h
  | succ fuel ih =>
    intro i n h
    obtain ⟨j, s, hj, hs⟩ := hwf i
    simp only [monitor_loop, hj, hs] at h
    by_cases hterm : (s.isStr "SUCCESS" || s.isStr "FAILURE") = true
    · rw [if_pos hterm] at h
      simp at h
    · rw [if_neg hterm] at h
      by_cases hlate : time_limit < elapsed i
      · rw [if_pos hlate] at h
        simp at h
      · rw [if_neg hlate] at h
        exact ih (i + 1) n h

/-- Whenever the polling loop returns, it has performed strictly more
fetches than the start index: from index 0, at least one. -/
theorem monitor_loop_progress (statuses : Nat → Option Json) (elapsed : Nat → ℚ)
    (time_limit : ℚ) :
    ∀ (fuel i n : Nat) (r : Option Json),
      monitor_loop statuses elapsed time_limit fuel i = some (n, r) → i < n := by
  intro fuel
  induction fuel with
  | zero => intro i n r h; exact Option.noConfusion h
  | succ fuel ih =>
    intro i n r h
    cases hj : statuses i with
    | none =>
      simp only [monitor_loop, hj] at h
      obtain ⟨h1, _⟩ := Prod.mk.injEq .. ▸ Option.some.injEq .. ▸ h
      omega
    | some j =>
      cases hs : j.getField "status" with
      | none =>
        simp only [monitor_loop, hj, hs] at h
        obtain ⟨h1, _⟩ := Prod.mk.injEq .. ▸ Option.some.injEq .. ▸ h
        omega
      | some s =>
        simp only [monitor_loop, hj, hs] at h
        by_cases hterm : (s.isStr "SUCCESS" || s.isStr "FAILURE") = true
        · rw [if_pos hterm] at h
          obtain ⟨h1, _⟩ := Prod.mk.injEq .. ▸ Option.some.injEq .. ▸ h
          omega
        · rw [if_neg hterm] at h
          by_cases hlate : time_limit < elapsed i
          · rw [if_pos hlate] at h
            obtain ⟨h1, _⟩ := Prod.mk.injEq .. ▸ Option.some.injEq .. ▸ h
            omega
          · rw [if_neg hlate] at h
            have := ih (i + 1) n r h
            omega

/-- C6: monitoring a job whose status stays non-terminal until the time
budget is exceeded returns the last fetched status object (after `k + 1`
fetches, where the deadline is first exceeded right after fetch `k`),
not an error value; and Python `None` is returned only when an exception
occurs during monitoring — with every fetch well-formed, `None` is
impossible. -/
theorem C6_monitor_timeout_returns_last_status :
    (∀ (statuses : Nat → Option Json) (elapsed : Nat → ℚ) (time_limit : ℚ)
       (fuel : Nat) (js st : Nat → Json) (k : Nat),
      (∀ i, i ≤ k → statuses i = some (js i)) →
      (∀ i, i ≤ k → (js i).getField "status" = some (st i)) →
      (∀ i, i ≤ k → (st i).isStr "SUCCESS" = false) →
      (∀ i, i ≤ k → (st i).isStr "FAILURE" = false) →
      (∀ i, i < k → ¬(time_limit < elapsed i)) →
      time_limit < elapsed k →
      k < fuel →
      monitor_job statuses elapsed time_limit fuel = some (k + 1, some (js k))) ∧
    (∀ (statuses : Nat → Option Json) (elapsed : Nat → ℚ) (time_limit : ℚ)
       (fuel n : Nat),
      (∀ i, ∃ j s, statuses i = some j ∧ j.getField "status" = some s) →
      monitor_job statuses elapsed time_limit fuel = some (n, none) → False) := by
  constructor
  · intro statuses elapsed time_limit fuel js st k hs hst hsu hfa hontime
      hlate hfuel
    have h := monitor_loop_reaches statuses elapsed time_limit js st k fuel 0
      (fun d hd => by simpa using hs d hd)
      (fun d hd => by simpa using hst d hd)
      (fun d hd => by simpa using hsu d hd)
      (fun d hd => by simpa using hfa d hd)
      (fun d hd => by simpa using hontime d hd)
      (by simpa using hlate)
      hfuel
    simpa [monitor_job] using h
  · intro statuses elapsed time_limit fuel n hwf h
    exact monitor_loop_no_none statuses elapsed time_limit hwf fuel 0 n h

/-- Witness for C6: a job stuck in `PENDING` monitored with a 15-second
budget and fetches at elapsed times 0, 10, 20 returns the third fetched
status object; and the same well-formed stream can never produce `None`. -/
theorem C6_monitor_timeout_returns_last_status_witness :
    monitor_job (fun _ => some (Json.obj [("status", Json.str "PENDING")]))
        (fun i => (i : ℚ) * 10) 15 3 =
      some (2 + 1, some (Json.obj [("status", Json.str "PENDING")])) ∧
    ¬(monitor_job (fun _ => some (Json.obj [("status", Json.str "PENDING")]))
        (fun i => (i : ℚ) * 10) 15 3 = some (3, none)) :=
  ⟨C6_monitor_timeout_returns_last_status.1
      (fun _ => some (Json.obj [("status", Json.str "PENDING")]))
      (fun i => (i : ℚ) * 10) 15 3
      (fun _ => Json.obj [("status", Json.str "PENDING")])
      (fun _ => Json.str "PENDING") 2
      (fun _ _ => rfl) (fun _ _ => rfl) (fun _ _ => rfl) (fun _ _ => rfl)
      (by intro i hi; interval_cases i <;> norm_num)
      (by norm_num) (by norm_num),
   fun h => C6_monitor_timeout_returns_last_status.2
      (fun _ => some (Json.obj [("status", Json.str "PENDING")]))
      (fun i => (i : ℚ) * 10) 15 3 3
      (fun _ => ⟨Json.obj [("status", Json.str "PENDING")],
        Json.str "PENDING", rfl, rfl⟩) h⟩

/-- C10: the monitor always performs a first status fetch whatever the
time budget; a terminal first status is returned immediately even when
the elapsed time already exceeds the budget; a non-terminal first status
with the budget already exceeded is still fetched and returned (the
timeout is only evaluated after a non-terminal fetch); and every
returning run has made at least one fetch. -/
theorem C10_monitor_always_fetches_once :
    (∀ (statuses : Nat → Option Json) (elapsed : Nat → ℚ) (time_limit : ℚ)
       (fuel : Nat) (js st : Json),
      1 ≤ fuel → statuses 0 = some js → js.getField "status" = some st →
      (st.isStr "SUCCESS" || st.isStr "FAILURE") = true →
      monitor_job statuses elapsed time_limit fuel = some (1, some js)) ∧
    (∀ (statuses : Nat → Option Json) (elapsed : Nat → ℚ) (time_limit : ℚ)
       (fuel : Nat) (js st : Json),
      1 ≤ fuel → statuses 0 = some js → js.getField "status" = some st →
      st.isStr "SUCCESS" = false → st.isStr "FAILURE" = false →
      time_limit < elapsed 0 →
      monitor_job statuses elapsed time_limit fuel = some (1, some js)) ∧
    (∀ (statuses : Nat → Option Json) (elapsed : Nat → ℚ) (time_limit : ℚ)
       (fuel n : Nat) (r : Option Json),
      monitor_job statuses elapsed time_limit fuel = some (n, r) → 1 ≤ n) := by
  refine ⟨?_, ?_, ?_⟩
  · intro statuses elapsed time_limit fuel js st hfuel h0 hst hterm
    match fuel, hfuel with
    | fuel + 1, _ =>
      simp [monitor_job, monitor_loop, h0, hst, hterm]
  · intro statuses elapsed time_limit fuel js st hfuel h0 hst hsu hfa hlate
    match fuel, hfuel with
    | fuel + 1, _ =>
      simp [monitor_job, monitor_loop, h0, hst, hsu, hfa, hlate]
  · intro statuses elapsed time_limit fuel n r h
    exact monitor_loop_progress statuses elapsed time_limit fuel 0 n r h

/-- Witness for C10: with a negative time budget and elapsed time 100, a
`SUCCESS` first status is fetched and returned and a `PENDING` first
status is fetched and returned too; both runs made one fetch. -/
theorem C10_monitor_always_fetches_once_witness :
    monitor_job (fun _ => some (Json.obj [("status", Json.str "SUCCESS")]))
        (fun _ => 100) (-1) 1 =
      some (1, some (Json.obj [("status", Json.str "SUCCESS")])) ∧
    monitor_job (fun _ => some (Json.obj [("status", Json.str "PENDING")]))
        (fun _ => 100) (-1) 1 =
      some (1, some (Json.obj [("status", Json.str "PENDING")])) ∧
    1 ≤ 1 :=
  ⟨C10_monitor_always_fetches_once.1
      (fun _ => some (Json.obj [("status", Json.str "SUCCESS")]))
      (fun _ => 100) (-1) 1 (Json.obj [("status", Json.str "SUCCESS")])
      (Json.str "SUCCESS") (by decide) rfl rfl rfl,
   C10_monitor_always_fetches_once.2.1
      (fun _ => some (Json.obj [("status", Json.str "PENDING")]))
      (fun _ => 100) (-1) 1 (Json.obj [("status", Json.str "PENDING")])
      (Json.str "PENDING") (by decide) rfl rfl rfl rfl (by norm_num),
   C10_monitor_always_fetches_once.2.2
      (fun _ => some (Json.obj [("status", Json.str "SUCCESS")]))
      (fun _ => 100) (-1) 1 1 (some (Json.obj [("status", Json.str "SUCCESS")]))
      (C10_monitor_always_fetches_once.1
        (fun _ => some (Json.obj [("status", Json.str "SUCCESS")]))
        (fun _ => 100) (-1) 1 (Json.obj [("status", Json.str "SUCCESS")])
        (Json.str "SUCCESS") (by decide) rfl rfl rfl)⟩

/-- Manifest iteration: when every entry has a `path` and a non-negative
integer `size`, the downloaded paths are exactly those of the entries
with non-zero size, in manifest order. -/
theorem download_files_nonzero :
    ∀ (fs : List Json),
      (∀ f, f ∈ fs → ∃ p, f.getField "path" = some p) →
      (∀ f, f ∈ fs → ∃ n : Int, f.getField "size" = some (Json.num n) ∧ 0 ≤ n) →
      download_files fs = some (nonzeroPaths fs) := by
  intro fs
  induction fs with
  | nil => intro _ _; rfl
  | cons f rest ih =>
    intro hp hsz
    obtain ⟨p, hpf⟩ := hp f (List.mem_cons_self f rest)
    obtain ⟨n, hnf, hn0⟩ := hsz f (List.mem_cons_self f rest)
    have ihr := ih (fun g hg => hp g (List.mem_cons_of_mem f hg))
      (fun g hg => hsz g (List.mem_cons_of_mem f hg))
    by_cases hpos : 0 < n
    · have hmn : manifestNonzero f = true := by
        simp only [manifestNonzero, hnf, bne_iff_ne, ne_eq]
        omega
      simp [download_files, hpf, hnf, hpos, ihr, nonzeroPaths,
        List.filter_cons, hmn, List.filterMap_cons]
    · have heq : n = 0 := by omega
      subst heq
      have hmn : manifestNonzero f = false := by
        simp [manifestNonzero, hnf]
      simp [download_files, hpf, hnf, ihr, nonzeroPaths, List.filter_cons, hmn]

/-- C8: a terminal SUCCESS job status whose file manifest gives each
entry a `path` and a (non-negative, as file sizes are) integer `size`
makes the downloader issue a download for exactly the entries with
non-zero size, skipping the zero-size ones, in manifest order. -/
theorem C8_download_nonzero_sizes (job_status : Json) (fs : List Json)
    (hstatus : job_status.getField "status" = some (Json.str "SUCCESS"))
    (hfiles : job_status.getField "files" = some (Json.arr fs))
    (hp : ∀ f, f ∈ fs → ∃ p, f.getField "path" = some p)
    (hsz : ∀ f, f ∈ fs → ∃ n : Int, f.getField "size" = some (Json.num n) ∧ 0 ≤ n) :
    download_successful_job job_status =
      some (JobDownloadOutcome.downloaded (nonzeroPaths fs)) := by
  have hdl := download_files_nonzero fs hp hsz
  simp [download_successful_job, hstatus, hfiles, hdl, Json.isStr]

/-- Witness for C8: a two-entry manifest with sizes 2 and 0 downloads
only the first path. -/
theorem C8_download_nonzero_sizes_witness :
    download_successful_job (Json.obj [("status", Json.str "SUCCESS"),
        ("files", Json.arr [Json.obj [("path", Json.str "a"), ("size", Json.num 2)],
          Json.obj [("path", Json.str "b"), ("size", Json.num 0)]])]) =
      some (JobDownloadOutcome.downloaded (nonzeroPaths
        [Json.obj [("path", Json.str "a"), ("size", Json.num 2)],
         Json.obj [("path", Json.str "b"), ("size", Json.num 0)]])) :=
  C8_download_nonzero_sizes _ _ rfl rfl
    (by
      intro f hf
      rcases List.mem_cons.mp hf with rfl | hf
      · exact ⟨Json.str "a", rfl⟩
      · rcases List.mem_cons.mp hf with rfl | hf
        · exact ⟨Json.str "b", rfl⟩
        · cases hf)
    (by
      intro f hf
      rcases List.mem_cons.mp hf with rfl | hf
      · exact ⟨2, rfl, by norm_num⟩
      · rcases List.mem_cons.mp hf with rfl | hf
        · exact ⟨0, rfl, le_refl 0⟩
        · cases hf)

/-- C9: in `upload_file_update` and `update_job`, a non-`None` non-`bool`
flag (or a non-`None` non-`str` description) fails the `assert` — the
payload builder raises and the method returns without any request being
sent, whatever the network would answer; and when the type checks pass,
the payload contains exactly the non-`None` fields, in source order. -/
theorem C9_update_payload_type_checks :
    (∀ (public description : PyVal),
      public ≠ PyVal.none → (∀ b, public ≠ PyVal.bool b) →
      upload_file_update_data public description = none ∧
      ∀ (net : Nat → Response) (rate fuel : Nat) (parse_json : Bool),
        upload_file_update net rate fuel public description parse_json = none) ∧
    (∀ (public description : PyVal),
      (public = PyVal.none ∨ ∃ b, public = PyVal.bool b) →
      description ≠ PyVal.none → (∀ s, description ≠ PyVal.str s) →
      upload_file_update_data public description = none ∧
      ∀ (net : Nat → Response) (rate fuel : Nat) (parse_json : Bool),
        upload_file_update net rate fuel public description parse_json = none) ∧
    (∀ (saved public : PyVal),
      saved ≠ PyVal.none → (∀ b, saved ≠ PyVal.bool b) →
      update_job_data saved public = none ∧
      ∀ (net : Nat → Response) (rate fuel : Nat),
        update_job net rate fuel saved public = none) ∧
    (∀ (saved public : PyVal),
      (saved = PyVal.none ∨ ∃ b, saved = PyVal.bool b) →
      public ≠ PyVal.none → (∀ b, public ≠ PyVal.bool b) →
      update_job_data saved public = none ∧
      ∀ (net : Nat → Response) (rate fuel : Nat),
        update_job net rate fuel saved public = none) ∧
    (upload_file_update_data PyVal.none PyVal.none = some [] ∧
      (∀ b, upload_file_update_data (PyVal.bool b) PyVal.none =
        some [("public", PyVal.bool b)]) ∧
      (∀ s, upload_file_update_data PyVal.none (PyVal.str s) =
        some [("description", PyVal.str s)]) ∧
      (∀ b s, upload_file_update_data (PyVal.bool b) (PyVal.str s) =
        some [("public", PyVal.bool b), ("description", PyVal.str s)])) ∧
    (update_job_data PyVal.none PyVal.none = some [] ∧
      (∀ b, update_job_data (PyVal.bool b) PyVal.none =
        some [("saved", PyVal.bool b)]) ∧
      (∀ b, update_job_data PyVal.none (PyVal.bool b) =
        some [("public", PyVal.bool b)]) ∧
      (∀ b c, update_job_data (PyVal.bool b) (PyVal.bool c) =
        some [("saved", PyVal.bool b), ("public", PyVal.bool c)])) := by
  refine ⟨?_, ?_, ?_, ?_, ?_, ?_⟩
  · intro pub desc hn hb
    cases pub with
    | none => exact absurd rfl hn
    | bool b => exact absurd rfl (hb b)
    | int n => exact ⟨rfl, fun _ _ _ _ => rfl⟩
    | str s => exact ⟨rfl, fun _ _ _ _ => rfl⟩
  · intro pub desc hpub hdn hds
    rcases hpub with rfl | ⟨b, rfl⟩ <;> cases desc with
    | none => exact absurd rfl hdn
    | str s => exact absurd rfl (hds s)
    | bool c => exact ⟨rfl, fun _ _ _ _ => rfl⟩
    | int n => exact ⟨rfl, fun _ _ _ _ => rfl⟩
  · intro saved pub hn hb
    cases saved with
    | none => exact absurd rfl hn
    | bool b => exact absurd rfl (hb b)
    | int n => exact ⟨rfl, fun _ _ _ => rfl⟩
    | str s => exact ⟨rfl, fun _ _ _ => rfl⟩
  · intro saved pub hsaved hn hb
    rcases hsaved with rfl | ⟨b, rfl⟩ <;> cases pub with
    | none => exact absurd rfl hn
    | bool c => exact absurd rfl (hb c)
    | int n => exact ⟨rfl, fun _ _ _ => rfl⟩
    | str s => exact ⟨rfl, fun _ _ _ => rfl⟩
  · exact ⟨rfl, fun _ => rfl, fun _ => rfl, fun _ _ => rfl⟩
  · exact ⟨rfl, fun _ => rfl, fun _ => rfl, fun _ _ => rfl⟩

/-- Witness for C9: an `int` flag fails the checks with no request sent;
well-typed calls build exactly the given fields. -/
theorem C9_update_payload_type_checks_witness :
    upload_file_update_data (PyVal.int 3) PyVal.none = none ∧
    upload_file_update (fun _ => Response.mk 200 (some Json.null)) 2 1
      (PyVal.int 3) PyVal.none true = none ∧
    upload_file_update_data (PyVal.bool true) (PyVal.int 7) = none ∧
    update_job_data (PyVal.str "x") PyVal.none = none ∧
    update_job_data PyVal.none (PyVal.int 0) = none ∧
    upload_file_update_data (PyVal.bool true) PyVal.none =
      some [("public", PyVal.bool true)] ∧
    update_job_data (PyVal.bool false) PyVal.none =
      some [("saved", PyVal.bool false)] :=
  ⟨(C9_update_payload_type_checks.1 (PyVal.int 3) PyVal.none
      (by decide) (by decide)).1,
   (C9_update_payload_type_checks.1 (PyVal.int 3) PyVal.none
      (by decide) (by decide)).2 (fun _ => Response.mk 200 (some Json.null)) 2 1 true,
   (C9_update_payload_type_checks.2.1 (PyVal.bool true) (PyVal.int 7)
      (Or.inr ⟨true, rfl⟩) (by decide) (fun s h => PyVal.noConfusion h)).1,
   (C9_update_payload_type_checks.2.2.1 (PyVal.str "x") PyVal.none
      (by decide) (by decide)).1,
   (C9_update_payload_type_checks.2.2.2.1 PyVal.none (PyVal.int 0)
      (Or.inl rfl) (by decide) (by decide)).1,
   C9_update_payload_type_checks.2.2.2.2.1.2.1 true,
   C9_update_payload_type_checks.2.2.2.2.2.2.1 false⟩

end CE
